import Mathlib

/-!
Verification of the longhorn-instance-manager proxy wire contract
(`proxy_pb2.py`, generated from `pkg/imrpc/proxy.proto`) and of the
asynchronous-operation tracking core its specification describes.

Part 1 embeds the protobuf descriptor shallowly: every message type of the
file (top-level and nested map-entry messages), with its fields, field
numbers, scalar or composite types, `repeated` labels, the `deprecated`
field option and the `map_entry` message option, plus every method of the
`ProxyEngineService` service with its input and output message types.
The data is transcribed from the serialized `FileDescriptorProto` in
`proxy_pb2.py`.

Part 2 models the AsyncOperationTracker / StatusAggregator component that
the specification describes for this repository; its implementation is not
part of the analysed sources, so it is modelled from the spec.
-/

/-- Scalar or composite type of a protobuf field, as recorded in the
descriptor (`TYPE_STRING`, `TYPE_BOOL`, `TYPE_INT32`, `TYPE_INT64`,
`TYPE_BYTES`, `TYPE_ENUM` with its type name, `TYPE_MESSAGE` with its
type name). -/
inductive FieldType where
  | fString
  | fBool
  | fInt32
  | fInt64
  | fBytes
  | fEnum (tyName : String)
  | fMessage (tyName : String)
deriving DecidableEq, Repr

/-- One field of a protobuf message: name, field number, type, whether it
carries the `repeated` label (label 3 in the descriptor) and whether its
options mark it deprecated (`\x18\x01` serialized field options). -/
structure FieldDecl where
  fname : String
  number : Nat
  ftype : FieldType
  isRepeated : Bool
  isDeprecated : Bool
deriving DecidableEq, Repr

/-- One protobuf message type: fully qualified name, fields in declared
order, and whether the message carries the `map_entry` option
(`\x38\x01` serialized message options), i.e. is the synthesized entry
type of a `map<...>` field with protocol map semantics (unordered entries,
unique keys). -/
structure MessageDecl where
  mname : String
  fields : List FieldDecl
  mapEntry : Bool
deriving DecidableEq, Repr

/-- One RPC method of a protobuf service: name, input message type,
output message type. -/
structure MethodDecl where
  methName : String
  inputType : String
  outputType : String
deriving DecidableEq, Repr

/-- Non-repeated string field. -/
def fStr (n : String) (num : Nat) : FieldDecl :=
  ⟨n, num, FieldType.fString, false, false⟩

/-- Repeated string field. -/
def fStrRep (n : String) (num : Nat) : FieldDecl :=
  ⟨n, num, FieldType.fString, true, false⟩

/-- Non-repeated bool field. -/
def fBoolF (n : String) (num : Nat) : FieldDecl :=
  ⟨n, num, FieldType.fBool, false, false⟩

/-- Non-repeated int32 field. -/
def fI32 (n : String) (num : Nat) : FieldDecl :=
  ⟨n, num, FieldType.fInt32, false, false⟩

/-- Non-repeated int64 field. -/
def fI64 (n : String) (num : Nat) : FieldDecl :=
  ⟨n, num, FieldType.fInt64, false, false⟩

/-- Non-repeated bytes field. -/
def fBytesF (n : String) (num : Nat) : FieldDecl :=
  ⟨n, num, FieldType.fBytes, false, false⟩

/-- Non-repeated enum-typed field. -/
def fEnumF (n : String) (num : Nat) (ty : String) : FieldDecl :=
  ⟨n, num, FieldType.fEnum ty, false, false⟩

/-- Non-repeated message-typed field. -/
def fMsg (n : String) (num : Nat) (ty : String) : FieldDecl :=
  ⟨n, num, FieldType.fMessage ty, false, false⟩

/-- Repeated message-typed field (the representation of `map<...>` fields
in the descriptor: a repeated field of the synthesized entry message). -/
def fMsgRep (n : String) (num : Nat) (ty : String) : FieldDecl :=
  ⟨n, num, FieldType.fMessage ty, true, false⟩

/-- The shared `proxy_engine_request` sub-message field (field 1 of every
wrapper request in the contract). -/
def perField : FieldDecl := fMsg "proxy_engine_request" 1 "imrpc.ProxyEngineRequest"

/-- A synthesized map-entry message with a string key and a message-typed
value: `key = 1 (string)`, `value = 2 (message ty)`, `map_entry` option set. -/
def mapEntryMsg (n : String) (valTy : String) : MessageDecl :=
  ⟨n, [fStr "key" 1, ⟨"value", 2, FieldType.fMessage valTy, false, false⟩], true⟩

/-- Every message type declared in `proxy.proto`, in descriptor order, each
top-level message followed by its nested map-entry messages. Transcribed
from the serialized descriptor in `proxy_pb2.py`. -/
def proxyProtoMessages : List MessageDecl :=
  [ ⟨"imrpc.ProxyEngineRequest",
      [ fStr "address" 1,
        ⟨"backend_store_driver", 2, FieldType.fEnum "imrpc.BackendStoreDriver", false, true⟩,
        fStr "engine_name" 3,
        fStr "volume_name" 4,
        fEnumF "data_engine" 5 "imrpc.DataEngine" ], false⟩,
    ⟨"imrpc.EngineVersionProxyResponse",
      [ fMsg "version" 1 "ptypes.VersionOutput" ], false⟩,
    ⟨"imrpc.EngineVolumeGetProxyResponse",
      [ fMsg "volume" 1 "ptypes.Volume" ], false⟩,
    ⟨"imrpc.EngineVolumeExpandRequest",
      [ perField, fMsg "expand" 2 "ptypes.VolumeExpandRequest" ], false⟩,
    ⟨"imrpc.EngineVolumeFrontendStartRequest",
      [ perField, fMsg "frontend_start" 2 "ptypes.VolumeFrontendStartRequest" ], false⟩,
    ⟨"imrpc.EngineVolumeSnapshotRequest",
      [ perField, fMsg "snapshot_volume" 2 "ptypes.VolumeSnapshotRequest" ], false⟩,
    ⟨"imrpc.EngineVolumeSnapshotProxyResponse",
      [ fMsg "snapshot" 1 "ptypes.VolumeSnapshotReply" ], false⟩,
    ⟨"imrpc.EngineVolumeUnmapMarkSnapChainRemovedSetRequest",
      [ perField,
        fMsg "unmap_mark_snap" 2 "ptypes.VolumeUnmapMarkSnapChainRemovedSetRequest" ], false⟩,
    ⟨"imrpc.EngineVolumeSnapshotMaxCountSetRequest",
      [ perField, fMsg "count" 2 "ptypes.VolumeSnapshotMaxCountSetRequest" ], false⟩,
    ⟨"imrpc.EngineVolumeSnapshotMaxSizeSetRequest",
      [ perField, fMsg "size" 2 "ptypes.VolumeSnapshotMaxSizeSetRequest" ], false⟩,
    ⟨"imrpc.EngineSnapshotListProxyResponse",
      [ fMsgRep "disks" 1 "imrpc.EngineSnapshotListProxyResponse.DisksEntry" ], false⟩,
    mapEntryMsg "imrpc.EngineSnapshotListProxyResponse.DisksEntry" "imrpc.EngineSnapshotDiskInfo",
    ⟨"imrpc.EngineSnapshotDiskInfo",
      [ fStr "name" 1,
        fStr "parent" 2,
        fMsgRep "children" 3 "imrpc.EngineSnapshotDiskInfo.ChildrenEntry",
        fBoolF "removed" 4,
        fBoolF "user_created" 5,
        fStr "created" 6,
        fStr "size" 7,
        fMsgRep "labels" 8 "imrpc.EngineSnapshotDiskInfo.LabelsEntry" ], false⟩,
    ⟨"imrpc.EngineSnapshotDiskInfo.ChildrenEntry",
      [ fStr "key" 1, fBoolF "value" 2 ], true⟩,
    ⟨"imrpc.EngineSnapshotDiskInfo.LabelsEntry",
      [ fStr "key" 1, fStr "value" 2 ], true⟩,
    ⟨"imrpc.EngineSnapshotRevertRequest",
      [ perField, fStr "name" 2 ], false⟩,
    ⟨"imrpc.EngineSnapshotPurgeRequest",
      [ perField, fBoolF "skip_if_in_progress" 2 ], false⟩,
    ⟨"imrpc.EngineSnapshotPurgeStatusProxyResponse",
      [ fMsgRep "status" 1 "imrpc.EngineSnapshotPurgeStatusProxyResponse.StatusEntry" ], false⟩,
    mapEntryMsg "imrpc.EngineSnapshotPurgeStatusProxyResponse.StatusEntry"
      "ptypes.SnapshotPurgeStatusResponse",
    ⟨"imrpc.EngineSnapshotCloneRequest",
      [ perField,
        fStr "from_engine_address" 2,
        fStr "snapshot_name" 3,
        fBoolF "export_backing_image_if_exist" 4,
        fI32 "file_sync_http_client_timeout" 5,
        fStr "from_engine_name" 6,
        fStr "from_volume_name" 7 ], false⟩,
    ⟨"imrpc.EngineSnapshotCloneStatusProxyResponse",
      [ fMsgRep "status" 1 "imrpc.EngineSnapshotCloneStatusProxyResponse.StatusEntry" ], false⟩,
    mapEntryMsg "imrpc.EngineSnapshotCloneStatusProxyResponse.StatusEntry"
      "ptypes.SnapshotCloneStatusResponse",
    ⟨"imrpc.EngineSnapshotRemoveRequest",
      [ perField, fStrRep "names" 2 ], false⟩,
    ⟨"imrpc.EngineSnapshotBackupRequest",
      [ perField,
        fStrRep "envs" 8,
        fStr "backup_name" 2,
        fStr "snapshot_name" 3,
        fStr "backup_target" 4,
        fStr "backing_image_name" 5,
        fStr "backing_image_checksum" 6,
        fMsgRep "labels" 7 "imrpc.EngineSnapshotBackupRequest.LabelsEntry",
        fStr "compression_method" 9,
        fI32 "concurrent_limit" 10,
        fStr "storage_class_name" 11 ], false⟩,
    ⟨"imrpc.EngineSnapshotBackupRequest.LabelsEntry",
      [ fStr "key" 1, fStr "value" 2 ], true⟩,
    ⟨"imrpc.EngineSnapshotBackupProxyResponse",
      [ fStr "backup_id" 1, fStr "replica" 2, fBoolF "is_incremental" 3 ], false⟩,
    ⟨"imrpc.EngineSnapshotBackupStatusRequest",
      [ perField,
        fStr "backup_name" 2,
        fStr "replica_address" 3,
        fStr "replica_name" 4 ], false⟩,
    ⟨"imrpc.EngineSnapshotBackupStatusProxyResponse",
      [ fStr "backup_url" 1,
        fStr "error" 2,
        fI32 "progress" 3,
        fStr "snapshot_name" 4,
        fStr "state" 5,
        fStr "replica_address" 6 ], false⟩,
    ⟨"imrpc.EngineBackupRestoreRequest",
      [ perField,
        fStrRep "envs" 2,
        fStr "url" 3,
        fStr "target" 4,
        fStr "volume_name" 5,
        fI32 "concurrent_limit" 6 ], false⟩,
    ⟨"imrpc.EngineBackupRestoreProxyResponse",
      [ fBytesF "taskError" 1 ], false⟩,
    ⟨"imrpc.EngineBackupRestoreStatusProxyResponse",
      [ fMsgRep "status" 1 "imrpc.EngineBackupRestoreStatusProxyResponse.StatusEntry" ], false⟩,
    mapEntryMsg "imrpc.EngineBackupRestoreStatusProxyResponse.StatusEntry"
      "imrpc.EngineBackupRestoreStatus",
    ⟨"imrpc.EngineBackupRestoreStatus",
      [ fBoolF "is_restoring" 1,
        fStr "last_restored" 2,
        fStr "current_restoring_backup" 3,
        fI32 "progress" 4,
        fStr "error" 5,
        fStr "filename" 6,
        fStr "state" 7,
        fStr "backup_url" 8 ], false⟩,
    ⟨"imrpc.EngineBackupRestoreFinishRequest",
      [ perField ], false⟩,
    ⟨"imrpc.EngineReplicaAddRequest",
      [ perField,
        fStr "replica_address" 2,
        fBoolF "restore" 3,
        fI64 "size" 4,
        fI64 "current_size" 5,
        fBoolF "fast_sync" 6,
        fI32 "file_sync_http_client_timeout" 7,
        fStr "replica_name" 8 ], false⟩,
    ⟨"imrpc.EngineReplicaListProxyResponse",
      [ fMsg "replica_list" 1 "ptypes.ReplicaListReply" ], false⟩,
    ⟨"imrpc.EngineReplicaVerifyRebuildRequest",
      [ perField, fStr "replica_address" 2, fStr "replica_name" 3 ], false⟩,
    ⟨"imrpc.EngineReplicaRebuildStatusProxyResponse",
      [ fMsgRep "status" 1 "imrpc.EngineReplicaRebuildStatusProxyResponse.StatusEntry" ], false⟩,
    mapEntryMsg "imrpc.EngineReplicaRebuildStatusProxyResponse.StatusEntry"
      "ptypes.ReplicaRebuildStatusResponse",
    ⟨"imrpc.EngineReplicaRemoveRequest",
      [ perField, fStr "replica_address" 2, fStr "replica_name" 3 ], false⟩,
    ⟨"imrpc.EngineReplicaModeUpdateRequest",
      [ perField, fStr "replica_address" 2, fEnumF "mode" 3 "ptypes.ReplicaMode" ], false⟩,
    ⟨"imrpc.EngineSnapshotHashRequest",
      [ perField, fStr "snapshot_name" 2, fBoolF "rehash" 3 ], false⟩,
    ⟨"imrpc.EngineSnapshotHashStatusRequest",
      [ perField, fStr "snapshot_name" 2 ], false⟩,
    ⟨"imrpc.EngineSnapshotHashStatusProxyResponse",
      [ fMsgRep "status" 1 "imrpc.EngineSnapshotHashStatusProxyResponse.StatusEntry" ], false⟩,
    mapEntryMsg "imrpc.EngineSnapshotHashStatusProxyResponse.StatusEntry"
      "ptypes.SnapshotHashStatusResponse",
    ⟨"imrpc.EngineMetricsGetProxyResponse",
      [ fMsg "metrics" 1 "ptypes.Metrics" ], false⟩ ]

/-- The well-known empty message type. -/
def emptyType : String := "google.protobuf.Empty"

/-- The methods of service `ProxyEngineService`, in descriptor order, with
their input and output message types. Transcribed from the serialized
descriptor in `proxy_pb2.py`. -/
def proxyEngineServiceMethods : List MethodDecl :=
  [ ⟨"ServerVersionGet", "imrpc.ProxyEngineRequest", "imrpc.EngineVersionProxyResponse"⟩,
    ⟨"VolumeGet", "imrpc.ProxyEngineRequest", "imrpc.EngineVolumeGetProxyResponse"⟩,
    ⟨"VolumeExpand", "imrpc.EngineVolumeExpandRequest", emptyType⟩,
    ⟨"VolumeFrontendStart", "imrpc.EngineVolumeFrontendStartRequest", emptyType⟩,
    ⟨"VolumeFrontendShutdown", "imrpc.ProxyEngineRequest", emptyType⟩,
    ⟨"VolumeUnmapMarkSnapChainRemovedSet",
      "imrpc.EngineVolumeUnmapMarkSnapChainRemovedSetRequest", emptyType⟩,
    ⟨"VolumeSnapshotMaxCountSet", "imrpc.EngineVolumeSnapshotMaxCountSetRequest", emptyType⟩,
    ⟨"VolumeSnapshotMaxSizeSet", "imrpc.EngineVolumeSnapshotMaxSizeSetRequest", emptyType⟩,
    ⟨"VolumeSnapshot", "imrpc.EngineVolumeSnapshotRequest",
      "imrpc.EngineVolumeSnapshotProxyResponse"⟩,
    ⟨"SnapshotList", "imrpc.ProxyEngineRequest", "imrpc.EngineSnapshotListProxyResponse"⟩,
    ⟨"SnapshotRevert", "imrpc.EngineSnapshotRevertRequest", emptyType⟩,
    ⟨"SnapshotPurge", "imrpc.EngineSnapshotPurgeRequest", emptyType⟩,
    ⟨"SnapshotPurgeStatus", "imrpc.ProxyEngineRequest",
      "imrpc.EngineSnapshotPurgeStatusProxyResponse"⟩,
    ⟨"SnapshotClone", "imrpc.EngineSnapshotCloneRequest", emptyType⟩,
    ⟨"SnapshotCloneStatus", "imrpc.ProxyEngineRequest",
      "imrpc.EngineSnapshotCloneStatusProxyResponse"⟩,
    ⟨"SnapshotRemove", "imrpc.EngineSnapshotRemoveRequest", emptyType⟩,
    ⟨"SnapshotHash", "imrpc.EngineSnapshotHashRequest", emptyType⟩,
    ⟨"SnapshotHashStatus", "imrpc.EngineSnapshotHashStatusRequest",
      "imrpc.EngineSnapshotHashStatusProxyResponse"⟩,
    ⟨"SnapshotBackup", "imrpc.EngineSnapshotBackupRequest",
      "imrpc.EngineSnapshotBackupProxyResponse"⟩,
    ⟨"SnapshotBackupStatus", "imrpc.EngineSnapshotBackupStatusRequest",
      "imrpc.EngineSnapshotBackupStatusProxyResponse"⟩,
    ⟨"BackupRestore", "imrpc.EngineBackupRestoreRequest",
      "imrpc.EngineBackupRestoreProxyResponse"⟩,
    ⟨"BackupRestoreStatus", "imrpc.ProxyEngineRequest",
      "imrpc.EngineBackupRestoreStatusProxyResponse"⟩,
    ⟨"BackupRestoreFinish", "imrpc.EngineBackupRestoreFinishRequest", emptyType⟩,
    ⟨"CleanupBackupMountPoints", emptyType, emptyType⟩,
    ⟨"ReplicaAdd", "imrpc.EngineReplicaAddRequest", emptyType⟩,
    ⟨"ReplicaList", "imrpc.ProxyEngineRequest", "imrpc.EngineReplicaListProxyResponse"⟩,
    ⟨"ReplicaRebuildingStatus", "imrpc.ProxyEngineRequest",
      "imrpc.EngineReplicaRebuildStatusProxyResponse"⟩,
    ⟨"ReplicaVerifyRebuild", "imrpc.EngineReplicaVerifyRebuildRequest", emptyType⟩,
    ⟨"ReplicaRemove", "imrpc.EngineReplicaRemoveRequest", emptyType⟩,
    ⟨"ReplicaModeUpdate", "imrpc.EngineReplicaModeUpdateRequest", emptyType⟩,
    ⟨"MetricsGet", "imrpc.ProxyEngineRequest", "imrpc.EngineMetricsGetProxyResponse"⟩ ]

/-- Look up a message type of `proxy.proto` by fully qualified name. -/
def findMessage (n : String) : Option MessageDecl :=
  proxyProtoMessages.find? (fun m => m.mname == n)

/-- Does `s` end with `suffix`? (Computed over the character lists, so the
kernel can evaluate it.) -/
def strEndsWith (s suffix : String) : Bool :=
  List.isPrefixOf suffix.data.reverse s.data.reverse

/-- Is the message `m` a status-map response: exactly one field, named
`status`, `repeated`, whose type is a synthesized map-entry message of
`proxy.proto` with the `map_entry` option set and a string key? This is
the `map<string, StatusEntry>` shape of the contract. -/
def isStatusMapMessage (m : MessageDecl) : Bool :=
  match m.fields with
  | [f] =>
    f.fname == "status" && f.isRepeated &&
    (match f.ftype with
     | FieldType.fMessage entryName =>
       (match findMessage entryName with
        | some entry =>
          entry.mapEntry &&
          (match entry.fields with
           | kf :: _ => kf.fname == "key" && kf.ftype == FieldType.fString
           | [] => false)
        | none => false)
     | _ => false)
  | _ => false

/-- Is the named output type a status-map response message of `proxy.proto`? -/
def isStatusMapResponse (n : String) : Bool :=
  match findMessage n with
  | some m => isStatusMapMessage m
  | none => false

/-- Does the named request type carry the address of the target engine, engine
name and volume name: either it is `imrpc.ProxyEngineRequest` itself
(which declares the `address`, `engine_name` and `volume_name` fields), or
it is a message of `proxy.proto` embedding a field of that type? -/
def embedsEngineTarget (n : String) : Bool :=
  (match findMessage "imrpc.ProxyEngineRequest" with
   | some per =>
     per.fields.any (fun f => f.fname == "address") &&
     per.fields.any (fun f => f.fname == "engine_name") &&
     per.fields.any (fun f => f.fname == "volume_name")
   | none => false) &&
  (n == "imrpc.ProxyEngineRequest" ||
   (match findMessage n with
    | some m => m.fields.any (fun f => f.ftype == FieldType.fMessage "imrpc.ProxyEngineRequest")
    | none => false))

/-- The three response shapes of the contract: the well-known empty
message, a status map keyed by a string (replica address), or a single
(non-status-map) response message. -/
inductive RespShape where
  | emptyResp
  | statusMapResp
  | singleResp
deriving DecidableEq, Repr

/-- Classify the output type of a method into one of the three response shapes;
`none` when the output type is neither `google.protobuf.Empty` nor a
message declared in `proxy.proto` (which never happens in the contract). -/
def classifyResponse (n : String) : Option RespShape :=
  if n == emptyType then some RespShape.emptyResp
  else
    match findMessage n with
    | some m =>
      if isStatusMapMessage m then some RespShape.statusMapResp
      else if m.mapEntry then none
      else some RespShape.singleResp
    | none => none

/-- Is `n` within ten percent of `target` (the reading of "approximately"
used for the numerical claims)? -/
def withinTenPercent (n target : Nat) : Bool :=
  target - target / 10 ≤ n && n ≤ target + target / 10

/-- Modelled from the spec: the operation kinds of the fire-and-track RPCs
(spec section 3, Operation). The tracker implementation is not among the
analysed sources; only the wire contract is. -/
inductive OpKind where
  | backup
  | restore
  | snapshotPurge
  | snapshotClone
  | snapshotHash
  | replicaRebuild
deriving DecidableEq, Repr

/-- Modelled from the spec: the stable composite operation key — engine
target, operation kind, and an optional discriminator such as a snapshot
or backup name (spec sections 3 and 4.3). -/
structure OpKey where
  engineAddress : String
  kind : OpKind
  discriminator : String
deriving DecidableEq, Repr

/-- Modelled from the spec: the per-replica progress state, `InProgress`,
`Complete` or `Error` (spec section 3, ReplicaStatus). -/
inductive RState where
  | inProgress
  | complete
  | rError
deriving DecidableEq, Repr

/-- Is the state terminal (`Complete` or `Error`)? -/
def RState.isTerminal : RState → Bool
  | RState.inProgress => false
  | RState.complete => true
  | RState.rError => true

/-- Modelled from the spec: a per-replica progress snapshot (spec section
3, ReplicaStatus). -/
structure ReplicaStatus where
  state : RState
  progressPercent : Nat
  errorMessage : Option String
deriving DecidableEq, Repr

/-- Modelled from the spec: a StatusMap — mapping from replica address to
ReplicaStatus with unique keys, order irrelevant; an absent key means
"not yet reported" (spec section 3, StatusMap). Represented as an
association list. -/
abbrev StatusMap := List (String × ReplicaStatus)

/-- Modelled from the spec: one tracked logical operation — its key, the
replica addresses it fans out to, and its per-replica statuses (spec
sections 3 and 4.3). -/
structure Operation where
  key : OpKey
  replicaAddresses : List String
  statuses : StatusMap
deriving DecidableEq, Repr

/-- Modelled from the spec: the operation map of the AsyncOperationTracker,
keyed by OpKey (spec section 4.3). -/
abbrev Tracker := List Operation

/-- Modelled from the spec: the error taxonomy of the tracker relevant to its
contract — `DuplicateOperation` and `UnknownOperation` (spec section 7). -/
inductive TrackerError where
  | DuplicateOperation
  | UnknownOperation
deriving DecidableEq, Repr

/-- Look up the status recorded for replica address `r` in a StatusMap. -/
def lookupStatus : StatusMap → String → Option ReplicaStatus
  | [], _ => none
  | (r', s) :: rest, r => if r' = r then some s else lookupStatus rest r

/-- Modelled from the spec: `query(opKey)` returns the current snapshot and
fails with `UnknownOperation` if `opKey` was never begun or has been
finished (spec section 4.3). -/
def query : Tracker → OpKey → Except TrackerError StatusMap
  | [], _ => Except.error TrackerError.UnknownOperation
  | op :: rest, k => if op.key = k then Except.ok op.statuses else query rest k

/-- Is an operation with key `k` currently active? -/
def isActive (t : Tracker) (k : OpKey) : Bool :=
  match query t k with
  | Except.ok _ => true
  | Except.error _ => false

/-- Modelled from the spec: `begin(opKey, kind, replicaAddresses)` fails
with `DuplicateOperation` if an operation with the same key is already
active, otherwise registers the operation with an empty status map (spec
section 4.3; the kind is part of the composite key). -/
def begin (t : Tracker) (k : OpKey) (replicas : List String) : Except TrackerError Tracker :=
  if isActive t k = true then Except.error TrackerError.DuplicateOperation
  else Except.ok (⟨k, replicas, []⟩ :: t)

/-- Modelled from the spec: the sticky-terminal upsert of the status of one
replica — an existing terminal (`Complete`/`Error`) entry is never
overwritten by a stale `InProgress` report; otherwise the report replaces
the entry, and an unseen replica address is inserted (spec sections 4.3,
4.4 and 5: the sticky-terminal rule of the tracker). -/
def upsertSticky : StatusMap → String → ReplicaStatus → StatusMap
  | [], r, s => [(r, s)]
  | (r', s') :: rest, r, s =>
    if r' = r then
      if s'.state.isTerminal = true ∧ s.state = RState.inProgress then (r', s') :: rest
      else (r', s) :: rest
    else (r', s') :: upsertSticky rest r s

/-- Modelled from the spec: `report(opKey, replicaAddress, status)` —
idempotent upsert into the status map of the operation, applying the
sticky-terminal rule; a report for an unknown `opKey` is dropped, not an
error (spec section 4.3). -/
def report : Tracker → OpKey → String → ReplicaStatus → Tracker
  | [], _, _, _ => []
  | op :: rest, k, r, s =>
    if op.key = k then { op with statuses := upsertSticky op.statuses r s } :: rest
    else op :: report rest k r s

/-- Modelled from the spec: `finish(opKey)` removes the operation;
idempotent, finishing twice is a no-op (spec section 4.3). -/
def finish : Tracker → OpKey → Tracker
  | [], _ => []
  | op :: rest, k => if op.key = k then finish rest k else op :: finish rest k

/-- Modelled from the spec: `StatusAggregator.merge(opKey)` reads every
reported ReplicaStatus for the operation and returns the map the
client-facing RPC returns, with no cross-replica summarization (spec
section 4.4). -/
def merge (t : Tracker) (k : OpKey) : Except TrackerError StatusMap :=
  query t k

/-- A sample operation key used by the concrete witnesses. -/
def kSample : OpKey := ⟨"tcp://10.42.0.5:8500", OpKind.backup, "backup-abc"⟩

/-- A sample terminal (Complete) replica status. -/
def stComplete : ReplicaStatus := ⟨RState.complete, 100, none⟩

/-- A sample in-progress replica status. -/
def stInProg : ReplicaStatus := ⟨RState.inProgress, 10, none⟩

/-- A sample tracker holding one operation whose replica `rA` has already
reported the terminal state `Complete`. -/
def tSticky : Tracker := [⟨kSample, ["rA"], [("rA", stComplete)]⟩]

/-- Helper: if the status recorded for `r` is terminal, a stale
`InProgress` report for `r` leaves the whole status map unchanged. -/
theorem upsertSticky_of_terminal (sm : StatusMap) (r : String) (s st : ReplicaStatus)
    (hrec : lookupStatus sm r = some st)
    (hterm : st.state.isTerminal = true)
    (hnew : s.state = RState.inProgress) :
    upsertSticky sm r s = sm := by
  induction sm with
  | nil => simp [lookupStatus] at hrec
  | cons p rest ih =>
    obtain ⟨r', s'⟩ := p
    by_cases h : r' = r
    · subst h
      simp [lookupStatus] at hrec
      subst hrec
      simp [upsertSticky, hterm, hnew]
    · simp [lookupStatus, h] at hrec
      simp [upsertSticky, h, ih hrec]

/-- Helper: querying after a report yields the sticky upsert of the
previous snapshot (and an unknown key stays unknown). -/
theorem query_report (t : Tracker) (k : OpKey) (r : String) (s : ReplicaStatus) :
    query (report t k r s) k = Except.map (fun sm => upsertSticky sm r s) (query t k) := by
  induction t with
  | nil => rfl
  | cons op rest ih =>
    by_cases h : op.key = k
    · simp [report, query, h, Except.map]
    · simp [report, query, h, ih]

/-- C3: for every operation key k, a call to begin(k) while an operation
with key k is already active fails with DuplicateOperation; in particular
a successful begin(k) immediately followed by a second begin(k) fails with
DuplicateOperation, so at most one operation per key is concurrently
active. -/
theorem begin_duplicate_rejected :
    (∀ (t : Tracker) (k : OpKey) (rs : List String), isActive t k = true →
      begin t k rs = Except.error TrackerError.DuplicateOperation) ∧
    (∀ (t t' : Tracker) (k : OpKey) (rs rs' : List String),
      begin t k rs = Except.ok t' →
      begin t' k rs' = Except.error TrackerError.DuplicateOperation) := by
  constructor
  · intro t k rs h
    simp [begin, h]
  · intro t t' k rs rs' h
    unfold begin at h
    split at h
    · exact absurd h (by simp)
    · have ht' : t' = ⟨k, rs, []⟩ :: t := by
        injection h with h1
        exact h1.symm
      subst ht'
      simp [begin, isActive, query]

/-- C3 witness: beginning the sample key on an empty tracker succeeds, and
beginning it again on the resulting tracker fails with
DuplicateOperation. -/
theorem begin_duplicate_rejected_witness :
    begin ([] : Tracker) kSample ["rA"] = Except.ok [⟨kSample, ["rA"], []⟩] ∧
    begin [⟨kSample, ["rA"], []⟩] kSample ["rB"] =
      Except.error TrackerError.DuplicateOperation :=
  ⟨by rfl,
    begin_duplicate_rejected.2 [] [⟨kSample, ["rA"], []⟩] kSample ["rA"] ["rB"] (by rfl)⟩

/-- C4: sticky-terminal monotonicity — once the status recorded for
replica r under operation key k is terminal (Complete or Error), a
subsequent report(k, r, InProgress) leaves the merged status returned by
StatusAggregator.merge (and by query) unchanged, for r and for the whole
map. -/
theorem sticky_terminal_merge_unchanged (t : Tracker) (k : OpKey) (r : String)
    (s : ReplicaStatus) (sm : StatusMap) (st : ReplicaStatus)
    (hq : merge t k = Except.ok sm)
    (hrec : lookupStatus sm r = some st)
    (hterm : st.state.isTerminal = true)
    (hnew : s.state = RState.inProgress) :
    merge (report t k r s) k = Except.ok sm ∧
    query (report t k r s) k = Except.ok sm := by
  have hs : upsertSticky sm r s = sm := upsertSticky_of_terminal sm r s st hrec hterm hnew
  have h := query_report t k r s
  unfold merge at hq
  rw [hq] at h
  simp [Except.map, hs] at h
  exact ⟨h, h⟩

/-- C4 witness: on the sample tracker where replica rA has already
reported Complete, a stale InProgress report leaves the merged map
unchanged. -/
theorem sticky_terminal_merge_unchanged_witness :
    merge tSticky kSample = Except.ok [("rA", stComplete)] ∧
    lookupStatus [("rA", stComplete)] "rA" = some stComplete ∧
    stComplete.state.isTerminal = true ∧
    stInProg.state = RState.inProgress ∧
    merge (report tSticky kSample "rA" stInProg) kSample =
      Except.ok [("rA", stComplete)] :=
  ⟨by rfl, by rfl, by rfl, by rfl,
    (sticky_terminal_merge_unchanged tSticky kSample "rA" stInProg
      [("rA", stComplete)] stComplete (by rfl) (by rfl) (by rfl) (by rfl)).1⟩

/-- C5: for every operation key k, finish(k) followed by query(k) fails
with UnknownOperation, and finishing a second time is a no-op (finish is
idempotent and never errors, being a total function on the tracker). -/
theorem finish_query_unknown_and_idempotent (t : Tracker) (k : OpKey) :
    query (finish t k) k = Except.error TrackerError.UnknownOperation ∧
    finish (finish t k) k = finish t k := by
  constructor
  · induction t with
    | nil => rfl
    | cons op rest ih =>
      by_cases h : op.key = k
      · simp [finish, h, ih]
      · simp [finish, query, h, ih]
  · induction t with
    | nil => rfl
    | cons op rest ih =>
      by_cases h : op.key = k
      · simp [finish, h, ih]
      · simp [finish, h, ih]

/-- C1 counterexample: SnapshotBackupStatus is a ProxyEngineService method
whose name ends in "Status", yet its response message
EngineSnapshotBackupStatusProxyResponse is not a StatusMap — it is a flat
single-replica message with no map field. -/
theorem snapshotBackupStatus_response_not_statusMap :
    MethodDecl.mk "SnapshotBackupStatus" "imrpc.EngineSnapshotBackupStatusRequest"
      "imrpc.EngineSnapshotBackupStatusProxyResponse" ∈ proxyEngineServiceMethods ∧
    strEndsWith "SnapshotBackupStatus" "Status" = true ∧
    isStatusMapResponse "imrpc.EngineSnapshotBackupStatusProxyResponse" = false := by
  exact ⟨by decide, by decide, by decide⟩

/-- C1 (amended): the ProxyEngineService methods whose names end in
"Status" are exactly SnapshotPurgeStatus, SnapshotCloneStatus,
SnapshotHashStatus, SnapshotBackupStatus, BackupRestoreStatus and
ReplicaRebuildingStatus, and every one of them except
SnapshotBackupStatus has a StatusMap response — a map from replicaAddress
keys to a per-replica status entry. -/
theorem status_rpcs_statusMap_except_backupStatus :
    (proxyEngineServiceMethods.filter
      (fun m => strEndsWith m.methName "Status")).map MethodDecl.methName =
      ["SnapshotPurgeStatus", "SnapshotCloneStatus", "SnapshotHashStatus",
        "SnapshotBackupStatus", "BackupRestoreStatus", "ReplicaRebuildingStatus"] ∧
    (proxyEngineServiceMethods.filter
      (fun m => strEndsWith m.methName "Status" && m.methName != "SnapshotBackupStatus")).all
      (fun m => isStatusMapResponse m.outputType) = true := by
  exact ⟨by decide, by decide⟩

/-- C2 counterexample: CleanupBackupMountPoints is a ProxyEngineService
method whose request is google.protobuf.Empty, which neither is nor
embeds the shared ProxyEngineRequest sub-message, so it carries no engine
address, engine name or volume name. -/
theorem cleanupBackupMountPoints_request_lacks_target :
    MethodDecl.mk "CleanupBackupMountPoints" emptyType emptyType ∈
      proxyEngineServiceMethods ∧
    embedsEngineTarget emptyType = false := by
  exact ⟨by decide, by decide⟩

/-- C2 (amended): every ProxyEngineService method except
CleanupBackupMountPoints takes a request that embeds, directly or via the
shared ProxyEngineRequest sub-message, the address, engine name and
volume name of the target engine; CleanupBackupMountPoints is the sole
exception, taking google.protobuf.Empty. -/
theorem requests_embed_engine_target_except_cleanup :
    proxyEngineServiceMethods.all
      (fun m => m.methName == "CleanupBackupMountPoints" ||
        embedsEngineTarget m.inputType) = true ∧
    (proxyEngineServiceMethods.filter
      (fun m => !(embedsEngineTarget m.inputType))).map MethodDecl.methName =
      ["CleanupBackupMountPoints"] := by
  exact ⟨by decide, by decide⟩

/-- C6: every ProxyEngineService method returns exactly one of the three
response shapes — google.protobuf.Empty, a single (non-status-map)
response message, or a status map keyed by replica address; the status
map responses are exactly those of the five map-shaped *Status methods,
and each one is a repeated field of a synthesized entry message carrying
the map_entry option with a string key, i.e. protocol
map-with-string-key semantics (entries unordered, keys unique). -/
theorem responses_empty_single_or_statusMap :
    proxyEngineServiceMethods.all
      (fun m => (classifyResponse m.outputType).isSome) = true ∧
    (proxyEngineServiceMethods.filter
      (fun m => classifyResponse m.outputType == some RespShape.statusMapResp)).map
      MethodDecl.methName =
      ["SnapshotPurgeStatus", "SnapshotCloneStatus", "SnapshotHashStatus",
        "BackupRestoreStatus", "ReplicaRebuildingStatus"] ∧
    (proxyEngineServiceMethods.filter
      (fun m => classifyResponse m.outputType == some RespShape.statusMapResp)).all
      (fun m => isStatusMapResponse m.outputType) = true ∧
    proxyProtoMessages.all (fun m => !m.mapEntry ||
      (match m.fields with
       | kf :: _ => kf.fname == "key" && kf.ftype == FieldType.fString
       | [] => false)) = true := by
  exact ⟨by decide, by decide, by decide, by decide⟩

/-- C7: in the ProxyEngineRequest message the backend_store_driver field
(field 2) is marked deprecated, and the newer data_engine field (field 5,
of enum type imrpc.DataEngine) is present alongside it. -/
theorem backend_store_driver_deprecated_data_engine_present :
    (findMessage "imrpc.ProxyEngineRequest").map (fun m =>
      m.fields.any (fun f => f.fname == "backend_store_driver" &&
        f.ftype == FieldType.fEnum "imrpc.BackendStoreDriver" && f.isDeprecated) &&
      m.fields.any (fun f => f.fname == "data_engine" &&
        f.ftype == FieldType.fEnum "imrpc.DataEngine" && !f.isDeprecated)) =
      some true := by
  decide

/-- C8 counterexample: the contract enumerates 31 RPC methods, which is
not approximately 40 (it is more than ten percent below it). -/
theorem method_count_not_approx_forty :
    proxyEngineServiceMethods.length = 31 ∧
    withinTenPercent proxyEngineServiceMethods.length 40 = false := by
  exact ⟨by decide, by decide⟩

/-- C8 (amended): the wire contract enumerates 31 RPC methods and 46
message shapes (37 top-level messages plus 9 nested map-entry messages);
the message count is approximately 45 as claimed, but the method count is
31, not approximately 40. -/
theorem method_and_message_counts :
    proxyEngineServiceMethods.length = 31 ∧
    proxyProtoMessages.length = 46 ∧
    (proxyProtoMessages.filter (fun m => !m.mapEntry)).length = 37 ∧
    withinTenPercent proxyProtoMessages.length 45 = true := by
  exact ⟨by decide, by decide, by decide, by decide⟩

/-- C9: SnapshotBackupStatus is a single-replica point query — its request
EngineSnapshotBackupStatusRequest carries the backup_name,
replica_address and replica_name discriminators in addition to the shared
proxy_engine_request sub-message, and its response
EngineSnapshotBackupStatusProxyResponse describes exactly one replica
(backup_url, error, progress, snapshot_name, state, replica_address, all
non-repeated) and is not a StatusMap, unlike the other five *Status
methods, whose responses all are. -/
theorem snapshotBackupStatus_single_replica_query :
    MethodDecl.mk "SnapshotBackupStatus" "imrpc.EngineSnapshotBackupStatusRequest"
      "imrpc.EngineSnapshotBackupStatusProxyResponse" ∈ proxyEngineServiceMethods ∧
    (findMessage "imrpc.EngineSnapshotBackupStatusRequest").map
      (fun m => m.fields.map FieldDecl.fname) =
      some ["proxy_engine_request", "backup_name", "replica_address", "replica_name"] ∧
    (findMessage "imrpc.EngineSnapshotBackupStatusProxyResponse").map
      (fun m => m.fields.map FieldDecl.fname) =
      some ["backup_url", "error", "progress", "snapshot_name", "state",
        "replica_address"] ∧
    (findMessage "imrpc.EngineSnapshotBackupStatusProxyResponse").map
      (fun m => m.fields.all (fun f => !f.isRepeated)) = some true ∧
    isStatusMapResponse "imrpc.EngineSnapshotBackupStatusProxyResponse" = false ∧
    (proxyEngineServiceMethods.filter
      (fun m => strEndsWith m.methName "Status" &&
        m.methName != "SnapshotBackupStatus")).all
      (fun m => isStatusMapResponse m.outputType && m.outputType !=
        "imrpc.EngineSnapshotBackupStatusProxyResponse") = true := by
  exact ⟨by decide, by decide, by decide, by decide, by decide, by decide⟩

/-- C10: the map-shaped status-query methods SnapshotPurgeStatus,
SnapshotCloneStatus, BackupRestoreStatus and ReplicaRebuildingStatus each
take the bare ProxyEngineRequest, whose fields (address,
backend_store_driver, engine_name, volume_name, data_engine) identify
only the engine target and data-engine kind — no snapshot, backup or
clone name — so the operation addressed by such a query is determined by
the engine target and the operation kind alone; only SnapshotHashStatus
additionally carries a snapshot_name discriminator, its request having
exactly the proxy_engine_request and snapshot_name fields. -/
theorem map_status_rpcs_bare_request :
    (["SnapshotPurgeStatus", "SnapshotCloneStatus", "BackupRestoreStatus",
      "ReplicaRebuildingStatus"] : List String).all
      (fun mn => proxyEngineServiceMethods.any
        (fun m => m.methName == mn &&
          m.inputType == "imrpc.ProxyEngineRequest")) = true ∧
    (findMessage "imrpc.ProxyEngineRequest").map
      (fun m => m.fields.map FieldDecl.fname) =
      some ["address", "backend_store_driver", "engine_name", "volume_name",
        "data_engine"] ∧
    proxyEngineServiceMethods.any
      (fun m => m.methName == "SnapshotHashStatus" &&
        m.inputType == "imrpc.EngineSnapshotHashStatusRequest") = true ∧
    (findMessage "imrpc.EngineSnapshotHashStatusRequest").map
      (fun m => m.fields.map FieldDecl.fname) =
      some ["proxy_engine_request", "snapshot_name"] := by
  exact ⟨by decide, by decide, by decide, by decide⟩
